import Mathlib

/-!
Verification of the moving-average signal pipeline in `run.py`.

The pipeline loads a YAML configuration, loads a CSV table, computes a
rolling mean of the `close` column, derives a binary signal series, and
emits a JSON metrics record.  We embed the pipeline shallowly:

* numeric values are rationals (`ℚ`), modelling exact arithmetic on the
  float column;
* the pandas NaN produced by `rolling(window).mean()` on warm-up rows is
  modelled as `none : Option ℚ`, and the pandas comparison `close > NaN`
  (which is `False`) as the `none` branch yielding signal `0`;
* a file on disk is `Option α`: `none` when the path does not exist,
  `some c` when it exists with parsed content `c`;
* the wall-clock latency is an ambient parameter of the run, since it is
  the only non-deterministic input.
-/

/-- Errors raised by the pipeline, mirroring `FileNotFoundError` and
`ValueError` in `run.py`. -/
inductive Err where
  | notFound (msg : String)
  | validation (msg : String)
deriving DecidableEq, Repr

/-- The message text of an error, as `str(e)` renders it. -/
def Err.message : Err → String
  | .notFound msg => msg
  | .validation msg => msg

/-- Whether an `Except Err α` result is a `ValueError`-style failure. -/
def Except.isValidation {α : Type} : Except Err α → Bool
  | .error (.validation _) => true
  | _ => false

/-- Whether an `Except Err α` result is a `FileNotFoundError`-style failure. -/
def Except.isNotFound {α : Type} : Except Err α → Bool
  | .error (.notFound _) => true
  | _ => false

/-- A parsed YAML configuration document: each required key is present or
absent (`Option`).  Mirrors the mapping returned by `yaml.safe_load`. -/
structure ConfigDoc where
  seedKey : Option Int
  windowKey : Option Nat
  versionKey : Option String
deriving DecidableEq, Repr

/-- A validated configuration: all three required keys present. -/
structure Config where
  seed : Int
  window : Nat
  version : String
deriving DecidableEq, Repr

/-- Model of `load_config`: fail with `FileNotFoundError` when the path does not
exist, then fail with `ValueError` on the first absent required key
(checked in the order `seed`, `window`, `version`), else return the
mapping. -/
def load_config (config_path : String) (file : Option ConfigDoc) :
    Except Err Config :=
  match file with
  | none => .error (.notFound ("Config file not found: " ++ config_path))
  | some doc =>
    match doc.seedKey with
    | none => .error (.validation "Missing required config key: seed")
    | some s =>
      match doc.windowKey with
      | none => .error (.validation "Missing required config key: window")
      | some w =>
        match doc.versionKey with
        | none => .error (.validation "Missing required config key: version")
        | some v => .ok ⟨s, w, v⟩

/-- A parsed CSV table: named columns, each an ordered list of numeric
values.  Mirrors the `pandas.DataFrame` returned by `pd.read_csv`. -/
structure DataFrame where
  cols : List (String × List ℚ)
deriving DecidableEq, Repr

/-- Model of `len(df)`: the number of data rows (length of the index, i.e. of the
first column; `0` for a table with no columns). -/
def DataFrame.nrows (df : DataFrame) : Nat :=
  ((df.cols.map (fun c => c.2.length)).head?).getD 0

/-- Model of `df.empty`: true when an axis has length zero, i.e. zero data rows. -/
def DataFrame.isEmpty (df : DataFrame) : Bool :=
  df.nrows == 0

/-- Model of the membership test `name in df.columns`. -/
def DataFrame.hasCol (df : DataFrame) (name : String) : Bool :=
  (df.cols.find? (fun c => c.1 == name)).isSome

/-- Model of `df[name]`: the values of the named column (empty when absent; the
pipeline only reads a column after validating its presence). -/
def DataFrame.col (df : DataFrame) (name : String) : List ℚ :=
  (((df.cols.find? (fun c => c.1 == name)).map (fun c => c.2))).getD []

/-- Model of `load_data`: fail with `FileNotFoundError` when the path does not
exist, with `ValueError` when the table is empty or lacks a `close`
column, else return the table unchanged. -/
def load_data (input_path : String) (file : Option DataFrame) :
    Except Err DataFrame :=
  match file with
  | none => .error (.notFound ("Input file not found: " ++ input_path))
  | some df =>
    if df.isEmpty then .error (.validation "Input CSV is empty")
    else if ¬ df.hasCol "close" then
      .error (.validation "Required close column missing")
    else .ok df

/-- Model of the rolling mean `rolling(window=window).mean()`: at row `i` the value is NaN
(`none`) while fewer than `window` observations are available, and
otherwise the mean of the trailing `window` values ending at row `i`. -/
def rollingMean (window : Nat) (xs : List ℚ) : List (Option ℚ) :=
  (List.range xs.length).map (fun i =>
    if i + 1 < window then none
    else some (((xs.drop (i + 1 - window)).take window).sum / (window : ℚ)))

/-- One cell of `(series > other).astype(int)`: the strict comparison of a
number against a possibly-NaN value, cast to an integer.  Comparison
against NaN is `False`, hence `0`. -/
def sigCell (x : ℚ) (m : Option ℚ) : Nat :=
  match m with
  | none => 0
  | some v => if v < x then 1 else 0

/-- Model of `(series > other).astype(int)`: element-wise comparison of a numeric
series against a series with possible NaNs. -/
def seriesGtSignals (xs : List ℚ) (ms : List (Option ℚ)) : List Nat :=
  (xs.zip ms).map (fun p => sigCell p.1 p.2)

/-- The binary signal series of `process_data`. -/
def signalsOf (window : Nat) (xs : List ℚ) : List Nat :=
  seriesGtSignals xs (rollingMean window xs)

/-- Model of `signals.mean()`: arithmetic mean of the signal series. -/
def signalRate (window : Nat) (xs : List ℚ) : ℚ :=
  ((signalsOf window xs).sum : ℚ) / ((signalsOf window xs).length : ℚ)

/-- Model of `process_data(df, seed, window)`: returns
`(rows_processed, signal_rate, signals)`.  The `np.random.seed(seed)`
call touches no randomness that affects the output. -/
def process_data (df : DataFrame) (seed : Int) (window : Nat) :
    Nat × ℚ × List Nat :=
  let _ := seed
  let close := df.col "close"
  (df.nrows, signalRate window close, signalsOf window close)

/-- The output record written to the output file and stdout: either the
success shape or the error shape of `main`. -/
inductive RunRecord where
  | success (version : String) (rows_processed : Nat) (metric : String)
      (value : ℚ) (latency_ms : Nat) (seed : Int)
  | error (version : String) (error_message : String)
deriving DecidableEq, Repr

/-- The `rows_processed` field of a record, when present. -/
def RunRecord.rowsProcessed? : RunRecord → Option Nat
  | .success _ r _ _ _ _ => some r
  | .error _ _ => none

/-- The `metric` field of a record, when present. -/
def RunRecord.metric? : RunRecord → Option String
  | .success _ _ m _ _ _ => some m
  | .error _ _ => none

/-- The `value` field of a record, when present. -/
def RunRecord.value? : RunRecord → Option ℚ
  | .success _ _ _ v _ _ => some v
  | .error _ _ => none

/-- The `seed` field of a record, when present. -/
def RunRecord.seed? : RunRecord → Option Int
  | .success _ _ _ _ _ s => some s
  | .error _ _ => none

/-- The `version` field of a record. -/
def RunRecord.version : RunRecord → String
  | .success v _ _ _ _ _ => v
  | .error v _ => v

/-- The `status` field of a record. -/
def RunRecord.status : RunRecord → String
  | .success _ _ _ _ _ _ => "success"
  | .error _ _ => "error"

/-- The body of `main`'s `try` block up to the metrics computation:
load the configuration, load the data, process. -/
def pipelineBody (config_path input_path : String)
    (configFile : Option ConfigDoc) (inputFile : Option DataFrame) :
    Except Err (Config × (Nat × ℚ × List Nat)) :=
  match load_config config_path configFile with
  | .error e => .error e
  | .ok config =>
    match load_data input_path inputFile with
    | .error e => .error e
    | .ok df => .ok (config, process_data df config.seed config.window)

/-- Model of `main`: one pass through the pipeline, producing the output record
and the process exit code.  On success the record carries the metrics
and the measured latency; any raised error is caught once and turned
into the error-shaped record with fallback version `"v1"`, followed by
`sys.exit(1)`. -/
def main_run (config_path input_path : String)
    (configFile : Option ConfigDoc) (inputFile : Option DataFrame)
    (latency_ms : Nat) : RunRecord × Nat :=
  match pipelineBody config_path input_path configFile inputFile with
  | .ok (config, (rows, rate, _)) =>
      (.success config.version rows "signal_rate" rate latency_ms config.seed, 0)
  | .error e => (.error "v1" e.message, 1)

/-- The arithmetic mean of a list of rationals, as the spec phrases it:
sum divided by length. -/
def listMean (ys : List ℚ) : ℚ :=
  ys.sum / (ys.length : ℚ)

/-- Well-formedness of a data frame, guaranteed by `pd.read_csv`: every
column has the same length as the index. -/
def DataFrame.Wf (df : DataFrame) : Prop :=
  ∀ c ∈ df.cols, c.2.length = df.nrows

instance (df : DataFrame) : Decidable df.Wf := by
  unfold DataFrame.Wf; infer_instance

/-- The concrete data frame of the spec scenario: one `close` column with
values `[1, 2, 3, 2, 5]`. -/
def scenarioDf : DataFrame :=
  ⟨[("close", [1, 2, 3, 2, 5])]⟩

/-- C1: with seed 42 and window 3 on close = [1,2,3,2,5], `process_data`
yields signal series [0,0,1,0,1], signal rate 2/5, and 5 rows processed. -/
theorem c1_concrete_scenario :
    process_data scenarioDf 42 3 = (5, 2 / 5, [0, 0, 1, 0, 1]) := by
  norm_num [process_data, scenarioDf, DataFrame.col, DataFrame.nrows,
    signalRate, signalsOf, seriesGtSignals, sigCell, rollingMean,
    List.range_succ]

theorem rollingMean_length (w : Nat) (xs : List ℚ) :
    (rollingMean w xs).length = xs.length := by
  simp [rollingMean]

theorem signalsOf_length (w : Nat) (xs : List ℚ) :
    (signalsOf w xs).length = xs.length := by
  simp [signalsOf, seriesGtSignals, rollingMean]

theorem rollingMean_getElem? (w : Nat) (xs : List ℚ) (i : Nat)
    (hi : i < xs.length) :
    (rollingMean w xs)[i]? =
      some (if i + 1 < w then none
        else some (((xs.drop (i + 1 - w)).take w).sum / (w : ℚ))) := by
  simp [rollingMean, List.getElem?_map, List.getElem?_range, hi]

theorem signalsOf_getElem? (w : Nat) (xs : List ℚ) (i : Nat)
    (hi : i < xs.length) :
    (signalsOf w xs)[i]? =
      some (sigCell (xs.getD i 0) ((rollingMean w xs).getD i none)) := by
  have hm : i < (rollingMean w xs).length := by rw [rollingMean_length]; exact hi
  have h1 : xs[i]? = some xs[i] := List.getElem?_eq_getElem hi
  have h2 : (rollingMean w xs)[i]? = some ((rollingMean w xs)[i]) :=
    List.getElem?_eq_getElem hm
  have hz : (xs.zip (rollingMean w xs))[i]? =
      some (xs[i], (rollingMean w xs)[i]) := by
    rw [List.getElem?_zip_eq_some]
    exact ⟨h1, h2⟩
  simp [signalsOf, seriesGtSignals, List.getElem?_map, hz,
    List.getD_eq_getElem?_getD, h1, h2]

theorem slice_eq_range_map (xs : List ℚ) (a w : Nat) (h : a + w ≤ xs.length) :
    (xs.drop a).take w = (List.range w).map (fun j => xs.getD (a + j) 0) := by
  apply List.ext_getElem
  · simp; omega
  · intro j h1 h2
    have hj : j < w := by simpa using h2
    have hja : a + j < xs.length := by omega
    rw [List.getElem_take, List.getElem_drop]
    simp [hj, List.getD_eq_getElem?_getD, List.getElem?_eq_getElem hja]

/-- C2: for a positive window, every row among the first `window - 1` rows
gets signal 0, whatever its close value: the comparison against the
undefined (NaN) rolling mean yields 0, not an error. -/
theorem c2_warmup_rows_signal_zero (w : Nat) (xs : List ℚ) (i : Nat)
    (hw : 0 < w) (h1 : i < w - 1) (hi : i < xs.length) :
    (signalsOf w xs)[i]? = some 0 := by
  have hlt : i + 1 < w := by omega
  have hnone : (rollingMean w xs).getD i none = none := by
    simp [List.getD_eq_getElem?_getD, rollingMean_getElem? w xs i hi, hlt]
  rw [signalsOf_getElem? w xs i hi, hnone]
  rfl

/-- Closed instance of C2 at window 3, close `[7, 9, 1]`, row 1. -/
theorem c2_warmup_rows_signal_zero_witness :
    (0 : Nat) < 3 ∧ 1 < 3 - 1 ∧ 1 < ([7, 9, 1] : List ℚ).length ∧
      (signalsOf 3 [7, 9, 1])[1]? = some 0 :=
  ⟨by norm_num, by norm_num, by norm_num,
    c2_warmup_rows_signal_zero 3 [7, 9, 1] 1 (by norm_num) (by norm_num)
      (by norm_num)⟩

/-- C3: for every positive window and row `i`, the rolling mean is
undefined (`none`) for `i < window - 1` and equals the arithmetic mean of
the close values at rows `i - window + 1` through `i` otherwise; and when
the rolling mean is defined, the signal at row `i` is 1 exactly when the
close value strictly exceeds it, and 0 otherwise. -/
theorem c3_rolling_mean_and_signal_spec (w : Nat) (xs : List ℚ) (i : Nat)
    (hw : 0 < w) (hi : i < xs.length) :
    (i < w - 1 → (rollingMean w xs)[i]? = some none) ∧
    (w - 1 ≤ i → (rollingMean w xs)[i]? =
      some (some (listMean ((List.range w).map
        (fun j => xs.getD (i + 1 - w + j) 0))))) ∧
    (∀ m : ℚ, (rollingMean w xs)[i]? = some (some m) →
      (((signalsOf w xs)[i]? = some 1 ↔ m < xs.getD i 0) ∧
       ((signalsOf w xs)[i]? = some 0 ↔ ¬ m < xs.getD i 0))) := by
  refine ⟨?_, ?_, ?_⟩
  · intro h
    have hlt : i + 1 < w := by omega
    simp [rollingMean_getElem? w xs i hi, hlt]
  · intro h
    have hnlt : ¬ i + 1 < w := by omega
    have ha : (i + 1 - w) + w ≤ xs.length := by omega
    rw [rollingMean_getElem? w xs i hi, if_neg hnlt,
      ← slice_eq_range_map xs (i + 1 - w) w ha]
    have hlen : ((xs.drop (i + 1 - w)).take w).length = w := by
      simp; omega
    simp [listMean, hlen]
  · intro m hm
    have hg : (rollingMean w xs).getD i none = some m := by
      simp [List.getD_eq_getElem?_getD, hm]
    rw [signalsOf_getElem? w xs i hi, hg]
    by_cases hlt : m < xs.getD i 0
    · simp [sigCell, hlt]
    · simp [sigCell, hlt]

/-- Closed instance of C3 at window 3, close `[1, 2, 3, 2, 5]`, rows 1
and 2. -/
theorem c3_rolling_mean_and_signal_spec_witness :
    (0 : Nat) < 3 ∧ 2 < ([1, 2, 3, 2, 5] : List ℚ).length ∧
    (rollingMean 3 [1, 2, 3, 2, 5])[1]? = some none ∧
    (rollingMean 3 [1, 2, 3, 2, 5])[2]? =
      some (some (listMean ((List.range 3).map
        (fun j => ([1, 2, 3, 2, 5] : List ℚ).getD (2 + 1 - 3 + j) 0)))) :=
  ⟨by norm_num, by norm_num,
    (c3_rolling_mean_and_signal_spec 3 [1, 2, 3, 2, 5] 1 (by norm_num)
      (by norm_num)).1 (by norm_num),
    (c3_rolling_mean_and_signal_spec 3 [1, 2, 3, 2, 5] 2 (by norm_num)
      (by norm_num)).2.1 (by norm_num)⟩

/-- C10: with window 1 the rolling mean at each row is that row's own
close value, so every signal is 0 and the signal rate is 0. -/
theorem c10_window_one_all_zero (xs : List ℚ) (h : xs ≠ []) :
    signalsOf 1 xs = List.replicate xs.length 0 ∧ signalRate 1 xs = 0 := by
  have hs : signalsOf 1 xs = List.replicate xs.length 0 := by
    apply List.ext_getElem?
    intro i
    by_cases hi : i < xs.length
    · have hslice : (xs.drop i).take 1 = [xs.getD i 0] := by
        have := slice_eq_range_map xs i 1 (by omega)
        simpa using this
      have hmean : (rollingMean 1 xs).getD i none = some (xs.getD i 0) := by
        simp [List.getD_eq_getElem?_getD, rollingMean_getElem? 1 xs i hi,
          hslice]
      rw [signalsOf_getElem? 1 xs i hi, hmean]
      simp [sigCell, List.getElem?_replicate, hi]
    · have h1 : (signalsOf 1 xs)[i]? = none := by
        rw [List.getElem?_eq_none_iff, signalsOf_length]
        omega
      have h2 : (List.replicate xs.length (0 : Nat))[i]? = none := by
        rw [List.getElem?_eq_none_iff, List.length_replicate]
        omega
      rw [h1, h2]
  refine ⟨hs, ?_⟩
  rw [signalRate, hs]
  simp

/-- Closed instance of C10 at close `[4, 7, 7]`. -/
theorem c10_window_one_all_zero_witness :
    ([4, 7, 7] : List ℚ) ≠ [] ∧
      signalsOf 1 [4, 7, 7] = List.replicate 3 0 ∧ signalRate 1 [4, 7, 7] = 0 :=
  ⟨by simp, (c10_window_one_all_zero [4, 7, 7] (by simp)).1,
    (c10_window_one_all_zero [4, 7, 7] (by simp)).2⟩

theorem sigCell_le_one (x : ℚ) (m : Option ℚ) : sigCell x m ≤ 1 := by
  cases m with
  | none => exact Nat.zero_le 1
  | some v =>
    show (if v < x then 1 else 0) ≤ 1
    split <;> omega

theorem signalsOf_mem_le_one (w : Nat) (xs : List ℚ) :
    ∀ s ∈ signalsOf w xs, s ≤ 1 := by
  intro s hs
  rw [signalsOf, seriesGtSignals] at hs
  rcases List.mem_map.mp hs with ⟨p, _, rfl⟩
  exact sigCell_le_one p.1 p.2

theorem col_length_of_wf (df : DataFrame) (name : String) (hwf : df.Wf)
    (h : df.hasCol name = true) : (df.col name).length = df.nrows := by
  unfold DataFrame.hasCol at h
  unfold DataFrame.col
  cases hf : df.cols.find? (fun c => c.1 == name) with
  | none => rw [hf] at h; simp at h
  | some c =>
    exact hwf c (List.mem_of_find?_eq_some hf)

/-- C4: for a well-formed non-empty table with a close column, the
signal rate returned by `process_data` is the arithmetic mean of the
binary signal series over all rows and lies in `[0, 1]`. -/
theorem c4_signal_rate_mean_and_bounds (df : DataFrame) (seed : Int)
    (w : Nat) (hw : 0 < w) (hcol : df.hasCol "close" = true) (hwf : df.Wf)
    (hne : 0 < df.nrows) :
    (process_data df seed w).2.1 =
      listMean (((process_data df seed w).2.2).map (fun n : Nat => (n : ℚ))) ∧
    0 ≤ (process_data df seed w).2.1 ∧ (process_data df seed w).2.1 ≤ 1 := by
  have hlen : (df.col "close").length = df.nrows :=
    col_length_of_wf df "close" hwf hcol
  refine ⟨?_, ?_, ?_⟩
  · show signalRate w (df.col "close") =
      listMean ((signalsOf w (df.col "close")).map (fun n : Nat => (n : ℚ)))
    rw [signalRate, listMean, List.length_map, Nat.cast_list_sum]
  · show 0 ≤ signalRate w (df.col "close")
    exact div_nonneg (by positivity) (by positivity)
  · show signalRate w (df.col "close") ≤ 1
    have hlen0 : 0 < (signalsOf w (df.col "close")).length := by
      rw [signalsOf_length, hlen]; exact hne
    rw [signalRate, div_le_one (by exact_mod_cast hlen0)]
    have hsum : (signalsOf w (df.col "close")).sum ≤
        (signalsOf w (df.col "close")).length := by
      have := List.sum_le_card_nsmul (signalsOf w (df.col "close")) 1
        (signalsOf_mem_le_one w (df.col "close"))
      simpa using this
    exact_mod_cast hsum

/-- Closed instance of C4 on the scenario table with window 3. -/
theorem c4_signal_rate_mean_and_bounds_witness :
    (0 : Nat) < 3 ∧ scenarioDf.hasCol "close" = true ∧ scenarioDf.Wf ∧
    0 < scenarioDf.nrows ∧
    ((process_data scenarioDf 42 3).2.1 =
      listMean (((process_data scenarioDf 42 3).2.2).map (fun n : Nat => (n : ℚ))) ∧
    0 ≤ (process_data scenarioDf 42 3).2.1 ∧
    (process_data scenarioDf 42 3).2.1 ≤ 1) :=
  ⟨by norm_num, by rfl, by decide, by decide,
    c4_signal_rate_mean_and_bounds scenarioDf 42 3 (by norm_num) (by rfl)
      (by decide) (by decide)⟩

/-- C5: for a valid configuration and a non-empty table with a close
column, the `rows_processed` field of the success record equals the
input row count. -/
theorem c5_rows_processed_is_row_count (cp ip : String) (s : Int) (w : Nat)
    (v : String) (df : DataFrame) (lat : Nat)
    (hne : df.isEmpty = false) (hcol : df.hasCol "close" = true) :
    ((main_run cp ip (some ⟨some s, some w, some v⟩) (some df) lat).1).rowsProcessed?
      = some df.nrows := by
  simp [main_run, pipelineBody, load_config, load_data, hne, hcol,
    process_data, RunRecord.rowsProcessed?]

/-- Closed instance of C5 on the scenario table. -/
theorem c5_rows_processed_is_row_count_witness :
    scenarioDf.isEmpty = false ∧ scenarioDf.hasCol "close" = true ∧
    ((main_run "config.yaml" "input.csv" (some ⟨some 42, some 3, some "v1"⟩)
        (some scenarioDf) 7).1).rowsProcessed? = some scenarioDf.nrows :=
  ⟨by decide, by decide,
    c5_rows_processed_is_row_count "config.yaml" "input.csv" 42 3 "v1"
      scenarioDf 7 (by decide) (by decide)⟩

/-- C6: for existing, parseable files, configuration loading fails with a
validation error exactly when one of `seed`, `window`, `version` is
absent (otherwise it returns the mapping's values), and data loading
fails with a validation error exactly when the table has zero data rows
or no `close` column (otherwise it returns the table unchanged). -/
theorem c6_validation_error_characterisation (p q : String)
    (doc : ConfigDoc) (df : DataFrame) :
    ((load_config p (some doc)).isValidation = true ↔
      (doc.seedKey = none ∨ doc.windowKey = none ∨ doc.versionKey = none)) ∧
    (∀ s w v, doc = ⟨some s, some w, some v⟩ →
      load_config p (some doc) = .ok ⟨s, w, v⟩) ∧
    ((load_data q (some df)).isValidation = true ↔
      (df.nrows = 0 ∨ df.hasCol "close" = false)) ∧
    (df.isEmpty = false → df.hasCol "close" = true →
      load_data q (some df) = .ok df) := by
  obtain ⟨sk, wk, vk⟩ := doc
  refine ⟨?_, ?_, ?_, ?_⟩
  · cases sk <;> cases wk <;> cases vk <;>
      simp [load_config, Except.isValidation]
  · intro s w v h
    rw [h]
    rfl
  · by_cases hE : df.nrows = 0
    · have : df.isEmpty = true := by simp [DataFrame.isEmpty, hE]
      simp [load_data, this, Except.isValidation, hE]
    · have hEf : df.isEmpty = false := by simp [DataFrame.isEmpty, hE]
      by_cases hC : df.hasCol "close"
      · simp [load_data, hEf, hC, Except.isValidation, hE]
      · have hCf : df.hasCol "close" = false := by simp [hC]
        simp [load_data, hEf, hCf, Except.isValidation, hE]
  · intro h1 h2
    simp [load_data, h1, h2]

/-- Closed instance of C6: a complete configuration and the scenario
table both load successfully and unchanged. -/
theorem c6_validation_error_characterisation_witness :
    load_config "config.yaml" (some ⟨some 42, some 3, some "v1"⟩)
        = .ok ⟨42, 3, "v1"⟩ ∧
    scenarioDf.isEmpty = false ∧ scenarioDf.hasCol "close" = true ∧
    load_data "input.csv" (some scenarioDf) = .ok scenarioDf :=
  ⟨(c6_validation_error_characterisation "config.yaml" "input.csv"
      ⟨some 42, some 3, some "v1"⟩ scenarioDf).2.1 42 3 "v1" rfl,
   by decide, by decide,
   (c6_validation_error_characterisation "config.yaml" "input.csv"
      ⟨some 42, some 3, some "v1"⟩ scenarioDf).2.2.2 (by decide) (by decide)⟩

/-- C7: when the configuration path or the input path does not exist, the
corresponding loader fails with a not-found error, and the run produces
an error-status record and exit code 1. -/
theorem c7_missing_path_not_found (cp ip : String)
    (configFile : Option ConfigDoc) (inputFile : Option DataFrame)
    (lat : Nat) (h : configFile = none ∨ inputFile = none) :
    (load_config cp none).isNotFound = true ∧
    (load_data ip none).isNotFound = true ∧
    (main_run cp ip configFile inputFile lat).1.status = "error" ∧
    (main_run cp ip configFile inputFile lat).2 = 1 := by
  have herr : ∃ e, pipelineBody cp ip configFile inputFile = .error e := by
    rcases h with h | h
    · subst h
      exact ⟨_, rfl⟩
    · subst h
      cases configFile with
      | none => exact ⟨_, rfl⟩
      | some doc =>
        unfold pipelineBody
        cases hc : load_config cp (some doc) with
        | error e => exact ⟨e, rfl⟩
        | ok cfg => exact ⟨_, rfl⟩
  obtain ⟨e, he⟩ := herr
  refine ⟨rfl, rfl, ?_, ?_⟩ <;> simp [main_run, he, RunRecord.status]

/-- Closed instance of C7: both files missing. -/
theorem c7_missing_path_not_found_witness :
    ((none : Option ConfigDoc) = none ∨ (none : Option DataFrame) = none) ∧
    ((load_config "config.yaml" none).isNotFound = true ∧
     (load_data "input.csv" none).isNotFound = true ∧
     (main_run "config.yaml" "input.csv" none none 3).1.status = "error" ∧
     (main_run "config.yaml" "input.csv" none none 3).2 = 1) :=
  ⟨Or.inl rfl,
    c7_missing_path_not_found "config.yaml" "input.csv" none none 3 (Or.inl rfl)⟩

/-- C8: any failure raised in the pipeline is caught exactly once and
produces the error-shaped record with fallback version `"v1"`, status
`"error"` and the caught error's message, paired with exit code 1; the
error record carries no fields from completed earlier stages. -/
theorem c8_error_record_shape (cp ip : String)
    (configFile : Option ConfigDoc) (inputFile : Option DataFrame)
    (lat : Nat) (e : Err)
    (h : pipelineBody cp ip configFile inputFile = .error e) :
    main_run cp ip configFile inputFile lat =
      (RunRecord.error "v1" e.message, 1) ∧
    (main_run cp ip configFile inputFile lat).1.rowsProcessed? = none ∧
    (main_run cp ip configFile inputFile lat).1.value? = none ∧
    (main_run cp ip configFile inputFile lat).1.status = "error" := by
  have hm : main_run cp ip configFile inputFile lat =
      (RunRecord.error "v1" e.message, 1) := by
    simp [main_run, h]
  exact ⟨hm, by rw [hm]; rfl, by rw [hm]; rfl, by rw [hm]; rfl⟩

/-- Closed instance of C8: a missing configuration file. -/
theorem c8_error_record_shape_witness :
    pipelineBody "config.yaml" "input.csv" none (some scenarioDf) =
      .error (.notFound "Config file not found: config.yaml") ∧
    main_run "config.yaml" "input.csv" none (some scenarioDf) 9 =
      (RunRecord.error "v1"
        (Err.notFound "Config file not found: config.yaml").message, 1) :=
  ⟨rfl,
    (c8_error_record_shape "config.yaml" "input.csv" none (some scenarioDf) 9
      (.notFound "Config file not found: config.yaml") rfl).1⟩

/-- C9: the pipeline is deterministic in its data fields: two runs on
the same configuration and input agree on `rows_processed`, `metric`,
`value`, `seed` and `version`, whatever their latencies. -/
theorem c9_deterministic_data_fields (cp ip : String)
    (configFile : Option ConfigDoc) (inputFile : Option DataFrame)
    (lat1 lat2 : Nat) :
    ((main_run cp ip configFile inputFile lat1).1).rowsProcessed? =
      ((main_run cp ip configFile inputFile lat2).1).rowsProcessed? ∧
    ((main_run cp ip configFile inputFile lat1).1).metric? =
      ((main_run cp ip configFile inputFile lat2).1).metric? ∧
    ((main_run cp ip configFile inputFile lat1).1).value? =
      ((main_run cp ip configFile inputFile lat2).1).value? ∧
    ((main_run cp ip configFile inputFile lat1).1).seed? =
      ((main_run cp ip configFile inputFile lat2).1).seed? ∧
    ((main_run cp ip configFile inputFile lat1).1).version =
      ((main_run cp ip configFile inputFile lat2).1).version := by
  cases hp : pipelineBody cp ip configFile inputFile with
  | ok r =>
    obtain ⟨cfg, rows, rest⟩ := r
    simp [main_run, hp, RunRecord.rowsProcessed?, RunRecord.metric?,
      RunRecord.value?, RunRecord.seed?, RunRecord.version]
  | error e =>
    simp [main_run, hp, RunRecord.rowsProcessed?, RunRecord.metric?,
      RunRecord.value?, RunRecord.seed?, RunRecord.version]
